/-
Verification of the LLM4ArxivPaper topic-to-summary pipeline.

This file gives a shallow embedding, in Lean 4, of the parts of the
pipeline that the specification's claims talk about:

* the arXiv archive client (`src/fetchers/arxiv_client.py`): query
  construction and the Atom feed entry post-processing
  (`_build_query`, `_parse_fallback_response`, `_fallback_fetch`);
* the relevance ranker (`src/filters/relevance_ranker.py`): `score`,
  `_score_with_llm`, `_score_heuristic` and their keyword helpers;
* the reading engine (`src/summaries/task_reader.py`):
  `_generate_interest_questions`, the findings loop of `analyse`,
  `_answer_with_quotes`, `_answer_heuristic`, `_split_sentences`;
* the report builder (`src/summaries/report_builder.py`): `build`,
  `_normalised_score`, `_generate_recommendation`;
* the static site builder (`src/publisher/static_site.py`):
  `_format_score` and the manifest construction in `build`;
* the orchestrator's threshold filter (`src/workflow/pipeline.py`).

Python floats are modelled by `ℚ`, Python strings by `String`,
`datetime` values by a `DateTime` record ordered lexicographically,
and fallible / external behaviour (HTTP responses, the LLM) by
explicit inputs: an already-decoded list of Atom feed entries, and
oracle functions returning `Option`-wrapped LLM responses where
`none` models "client unavailable or the call raised" (both of which
the Python code sends to the same heuristic fallback branch).
-/

import Mathlib

set_option autoImplicit false
set_option linter.unusedVariables false
set_option maxHeartbeats 2000000
set_option maxRecDepth 8000

/-! ## Python-modelling helpers -/

/-- `"sep".join(parts)` from Python. -/
def joinSep (sep : String) : List String → String
  | [] => ""
  | [x] => x
  | x :: y :: xs => x ++ sep ++ joinSep sep (y :: xs)

/-- Python's `needle in haystack` substring test. -/
def substrB (needle haystack : String) : Bool :=
  decide (List.IsInfix needle.toList haystack.toList)

/-- Python's `s.strip()` on the character list. -/
def pyStripChars (l : List Char) : List Char :=
  ((l.dropWhile Char.isWhitespace).reverse.dropWhile Char.isWhitespace).reverse

/-- Python's `s.strip()`. -/
def pyStrip (s : String) : String :=
  String.mk (pyStripChars s.toList)

/-- Python's `s.lower()` (ASCII case folding). -/
def pyLower (s : String) : String :=
  String.mk (s.toList.map Char.toLower)

/-- Python's `c in s` for a single character. -/
def pyContains (s : String) (c : Char) : Bool :=
  s.toList.contains c

/-- Python's `s[:n]` character slice. -/
def pyTake (s : String) (n : Nat) : String :=
  String.mk (s.toList.take n)

/-- Worker for `pySplitOn`; the fuel argument (at least the input length
plus one) only makes the recursion structural. -/
def splitOnAux (sep : List Char) : Nat → List Char → List Char → List (List Char)
  | 0, acc, _ => [acc.reverse]
  | _ + 1, acc, [] => [acc.reverse]
  | fuel + 1, acc, c :: rest =>
    if sep.isPrefixOf (c :: rest) then
      acc.reverse :: splitOnAux sep fuel [] (List.drop sep.length (c :: rest))
    else splitOnAux sep fuel (c :: acc) rest

/-- Python's `s.split(sep)` for a non-empty separator. -/
def pySplitOn (s sep : String) : List String :=
  (splitOnAux sep.toList (s.toList.length + 1) [] s.toList).map String.mk

/-- Worker for `pySplitPred`. -/
def splitPredAux (p : Char → Bool) (acc : List Char) : List Char → List String
  | [] => [String.mk acc.reverse]
  | c :: rest =>
    if p c then String.mk acc.reverse :: splitPredAux p [] rest
    else splitPredAux p (c :: acc) rest

/-- `re.split` on a single-character class: cut at every character matching
`p` (consecutive delimiters produce empty fields, as in Python). -/
def pySplitPred (s : String) (p : Char → Bool) : List String :=
  splitPredAux p [] s.toList

/-- Worker for `pyReplace`; fuel as in `splitOnAux`. -/
def replaceAux (pat repl : List Char) : Nat → List Char → List Char
  | 0, l => l
  | _ + 1, [] => []
  | fuel + 1, c :: rest =>
    if pat.isPrefixOf (c :: rest) then
      repl ++ replaceAux pat repl fuel (List.drop pat.length (c :: rest))
    else c :: replaceAux pat repl fuel rest

/-- Python's `s.replace(pat, repl)` for a non-empty pattern
(non-overlapping, left to right). -/
def pyReplace (s pat repl : String) : String :=
  String.mk (replaceAux pat.toList repl.toList (s.toList.length + 1) s.toList)

/-- Python's `x or d` for floats: `x` is falsy exactly when it is zero. -/
def pyOr (x d : ℚ) : ℚ :=
  if x = 0 then d else x

/-- Python's `s or d` for strings: `s` is falsy exactly when it is empty. -/
def pyOrS (s d : String) : String :=
  if s = "" then d else s

/-- Left-pad a decimal string with zeros to width `w` (for `strftime`/format). -/
def padZeros (w : Nat) (s : String) : String :=
  String.mk (List.replicate (w - s.length) '0') ++ s

/-- Round a rational to the nearest integer, ties to even
(the rounding used by Python's fixed-point string formatting). -/
def roundHalfEven (q : ℚ) : ℤ :=
  let f : ℤ := ⌊q⌋
  let frac : ℚ := q - f
  if frac < 1/2 then f
  else if 1/2 < frac then f + 1
  else if f % 2 = 0 then f else f + 1

/-- Python's `"{:.Nf}".format(q)` fixed-point rendering (idealised over `ℚ`). -/
def formatFixed (decimals : Nat) (q : ℚ) : String :=
  let scaled : ℤ := roundHalfEven (q * ((10 : ℚ) ^ decimals))
  let n : Nat := scaled.natAbs
  let intPart : Nat := n / 10 ^ decimals
  let fracPart : Nat := n % 10 ^ decimals
  (if scaled < 0 then "-" else "") ++ toString intPart ++
    (if decimals = 0 then "" else "." ++ padZeros decimals (toString fracPart))

/-! ## Data model (`src/core/models.py`) -/

/-- `datetime` restricted to the fields the pipeline renders; ordered below
via an injective key (valid dates have `month ≤ 12`, `day ≤ 31`, `hour < 24`,
`minute < 60`, `second < 60`, so the key order is the `datetime` order). -/
structure DateTime where
  year : Nat
  month : Nat
  day : Nat
  hour : Nat
  minute : Nat
  second : Nat
deriving DecidableEq

def DateTime.key (t : DateTime) : Nat :=
  ((((t.year * 13 + t.month) * 32 + t.day) * 24 + t.hour) * 60 + t.minute) * 60 + t.second

instance : LT DateTime := ⟨fun a b => a.key < b.key⟩
instance : LE DateTime := ⟨fun a b => a.key ≤ b.key⟩

instance (a b : DateTime) : Decidable (a < b) :=
  inferInstanceAs (Decidable (a.key < b.key))

instance (a b : DateTime) : Decidable (a ≤ b) :=
  inferInstanceAs (Decidable (a.key ≤ b.key))

/-- `strftime("%Y-%m-%d")`. -/
def DateTime.formatYMD (t : DateTime) : String :=
  padZeros 4 (toString t.year) ++ "-" ++ padZeros 2 (toString t.month) ++ "-" ++
    padZeros 2 (toString t.day)

/-- `strftime("%Y-%m-%d %H:%M UTC")` (the report footer format). -/
def DateTime.formatFooter (t : DateTime) : String :=
  t.formatYMD ++ " " ++ padZeros 2 (toString t.hour) ++ ":" ++ padZeros 2 (toString t.minute)
    ++ " UTC"

/-- `TopicQuery` from `src/core/models.py`. -/
structure TopicQuery where
  categories : List String
  «include» : List String
  exclude : List String
deriving DecidableEq

/-- `TopicConfig` from `src/core/models.py`. -/
structure TopicConfig where
  name : String
  label : String
  query : TopicQuery
  interest_prompt : String
deriving DecidableEq

/-- `PaperCandidate` from `src/core/models.py`, extended with the
`affiliations` and `comment` keyword arguments that
`src/fetchers/arxiv_client.py` passes to its constructor. -/
structure PaperCandidate where
  topic : TopicConfig
  arxiv_id : String
  title : String
  abstract : String
  authors : List String
  categories : List String
  published : DateTime
  updated : DateTime
  arxiv_url : String
  pdf_url : Option String
  affiliations : List String
  comment : Option String
deriving DecidableEq

/-- `RelevanceDimension` from `src/core/models.py`. -/
structure RelevanceDimension where
  name : String
  weight : ℚ
  description : Option String
deriving DecidableEq

/-- `DimensionScore` from `src/core/models.py`. -/
structure DimensionScore where
  name : String
  weight : ℚ
  value : ℚ
deriving DecidableEq

/-- `ScoredPaper` from `src/core/models.py`. -/
structure ScoredPaper where
  paper : PaperCandidate
  scores : List DimensionScore
  total_score : ℚ
deriving DecidableEq

/-- `TaskItem` from `src/core/models.py`. -/
structure TaskItem where
  question : String
  reason : String
deriving DecidableEq

/-- `TaskFinding` from `src/core/models.py`. -/
structure TaskFinding where
  task : TaskItem
  answer : String
  confidence : ℚ
deriving DecidableEq

/-- Modelled from the spec: `CoreSummary` (five required narrative fields
`problem`, `solution`, `methodology`, `experiments`, `conclusion`) is imported
from `core.models` by the reading engine and the report builder, and
constructed/read with exactly these five string fields, but its class
definition is absent from the sources under `src/`. -/
structure CoreSummary where
  problem : String
  solution : String
  methodology : String
  experiments : String
  conclusion : String
deriving DecidableEq

/-- `PaperSummary` as constructed by `ReportBuilder.build`
(`src/summaries/report_builder.py`). -/
structure PaperSummary where
  paper : PaperCandidate
  topic : TopicConfig
  core_summary : Option CoreSummary
  task_list : List TaskItem
  findings : List TaskFinding
  overview : String
  score_details : ScoredPaper
  markdown : String
  brief_summary : String
deriving DecidableEq

/-- Python's `max(xs, key=key)`: `none` on the empty list (where Python raises),
otherwise the first element attaining the maximal key, via the left fold
`best := y if key(y) > key(best) else best`. -/
def pyMaxBy {α : Type} (key : α → ℚ) : List α → Option α
  | [] => none
  | x :: xs => some (xs.foldl (fun best y => if key best < key y then y else best) x)

/-! ## Reading engine (`src/summaries/task_reader.py`) -/

namespace TaskReader

/-- The two-item fallback list of `TaskReader._generate_interest_questions`
(returned offline, on an empty interest prompt, on an LLM exception, and when
the LLM yields no valid question). -/
def defaultInterestTasks : List TaskItem :=
  [{ question := "这篇论文的主要贡献是什么?", reason := "理解核心创新点" },
   { question := "实验结果如何验证了方法的有效性?", reason := "评估方法可靠性" }]

/-- One iteration of the question-collection loop in
`_generate_interest_questions`: keep the entry when its stripped `question`
field is non-empty, defaulting an empty `reason`. -/
def questionStep (acc : List TaskItem) (item : String × String) : List TaskItem :=
  if pyStrip item.1 ≠ "" then
    acc ++ [{ question := pyStrip item.1, reason := pyOrS (pyStrip item.2) "深入理解论文" }]
  else acc

/-- `TaskReader._generate_interest_questions`. `client_available` models
`self._client is not None`; `llm_questions` models the parsed `questions`
array of the LLM's JSON reply (each item reduced to its `question`/`reason`
fields with the code's `.get(..., "")` defaults), with `none` for the
exception path. -/
def generate_interest_questions (client_available : Bool) (interest_prompt : String)
    (llm_questions : Option (List (String × String))) : List TaskItem :=
  if !client_available || interest_prompt = "" then defaultInterestTasks
  else
    match llm_questions with
    | none => defaultInterestTasks
    | some questions =>
      if ((questions.take 5).foldl questionStep []).isEmpty then defaultInterestTasks
      else (questions.take 5).foldl questionStep []

/-- Whitespace-run collapsing of `re.sub(r"\s+", " ", text)`; the flag records
whether the previous character was part of a whitespace run. -/
def collapseWsGo : Bool → List Char → List Char
  | _, [] => []
  | prevWs, c :: rest =>
    if c.isWhitespace then
      if prevWs then collapseWsGo true rest else ' ' :: collapseWsGo true rest
    else c :: collapseWsGo false rest

def collapseWs (s : String) : String :=
  String.mk (collapseWsGo false s.toList)

def isSentenceEnder (c : Char) : Bool :=
  ['。', '！', '？', '.', '!', '?'].contains c

/-- The split of `re.split(r"(?<=[。！？.!?])\s+", cleaned)` on a string whose
whitespace runs have already been collapsed to single spaces: cut at a
whitespace character whose predecessor is a sentence ender. -/
def splitAfterEndersGo (acc : List Char) : List Char → List String
  | [] => [String.mk acc.reverse]
  | c :: rest =>
    if c.isWhitespace && (match acc with | p :: _ => isSentenceEnder p | [] => false) then
      String.mk acc.reverse :: splitAfterEndersGo [] rest
    else splitAfterEndersGo (c :: acc) rest

/-- `TaskReader._split_sentences`. -/
def split_sentences (text : String) : List String :=
  ((splitAfterEndersGo [] (collapseWs text).toList).map pyStrip).filter (fun s => s ≠ "")

/-- The matching loop of `TaskReader._answer_heuristic`: append each sentence
containing some keyword, breaking once two sentences have matched. -/
def collectMatchedGo (keywords : List String) (matched : List String) : List String → List String
  | [] => matched
  | sentence :: rest =>
    if 2 ≤ (if keywords.any (fun k => substrB (pyLower k) (pyLower sentence)) then
              matched ++ [sentence] else matched).length then
      (if keywords.any (fun k => substrB (pyLower k) (pyLower sentence)) then
        matched ++ [sentence] else matched)
    else
      collectMatchedGo keywords
        (if keywords.any (fun k => substrB (pyLower k) (pyLower sentence)) then
          matched ++ [sentence] else matched) rest

/-- The matched-sentence list of `_answer_heuristic` (before the
`sentences[:1]` fallback). -/
def matchedSentences (task : TaskItem) (markdown : String) : List String :=
  collectMatchedGo
    (((pySplitPred task.question (fun c => ['，', ',', ';', '；'].contains c)).map pyStrip).filter
      (fun w => w ≠ ""))
    [] (split_sentences markdown)

/-- `TaskReader._answer_heuristic`, returning `(answer, confidence)`. -/
def answer_heuristic (task : TaskItem) (markdown : String) : String × ℚ :=
  (pyOrS (pyStrip (joinSep " "
      (if (matchedSentences task markdown).isEmpty then (split_sentences markdown).take 1
       else matchedSentences task markdown)))
    "No sufficient information",
   max 0 (min 1 ((2 : ℚ)/5 + 3/10 *
      ((if (matchedSentences task markdown).isEmpty then (split_sentences markdown).take 1
        else matchedSentences task markdown).length : ℚ))))

/-- The parsed JSON object of one stage-4 LLM reply: the `answer` and
`confidence` fields when present (`data.get` defaults apply when absent). -/
structure LLMAnswerResponse where
  answer : Option String
  confidence : Option ℚ
deriving DecidableEq

/-- `TaskReader._answer_with_quotes` after the JSON parse: default the missing
fields, strip the answer, clip the confidence into `[0, 1]`. -/
def answer_with_quotes (resp : LLMAnswerResponse) : String × ℚ :=
  (pyStrip (resp.answer.getD "No sufficient information found in the paper."),
   max 0 (min 1 (resp.confidence.getD (1/2))))

/-- The per-task answer choice inside `TaskReader.analyse`: the LLM branch
when the client is available and the call succeeds (`some resp`), the
heuristic branch otherwise (client `None`, or the call raised). -/
def answerOf (oracle : TaskItem → Option LLMAnswerResponse) (markdown : String)
    (task : TaskItem) : String × ℚ :=
  match oracle task with
  | some resp => answer_with_quotes resp
  | none => answer_heuristic task markdown

/-- The findings loop of `TaskReader.analyse` (step 4): one `TaskFinding`
per task, in task order. -/
def analyseFindings (oracle : TaskItem → Option LLMAnswerResponse) (tasks : List TaskItem)
    (markdown : String) : List TaskFinding :=
  tasks.map fun task =>
    { task := task
      answer := (answerOf oracle markdown task).1
      confidence := (answerOf oracle markdown task).2 }

end TaskReader

/-! ## Archive client (`src/fetchers/arxiv_client.py`) -/

namespace ArxivClient

/-- `FetchConfig` from `src/core/models.py` (fields used by the client). -/
structure FetchConfig where
  max_papers_per_topic : Nat
  days_back : Nat
  request_delay : ℚ
deriving DecidableEq

/-- `ArxivClient._keyword_clause`. -/
def keyword_clause (keyword : String) : String :=
  if pyContains (pyStrip keyword) ' ' then
    "ti:\"" ++ pyStrip keyword ++ "\" OR abs:\"" ++ pyStrip keyword ++ "\""
  else
    "ti:" ++ pyStrip keyword ++ " OR abs:" ++ pyStrip keyword

/-- The final join of `_build_query`: `"all:cs"` when no part was built,
otherwise the parts joined by `" AND "`. -/
def queryJoin (parts : List String) : String :=
  if parts.isEmpty then "all:cs" else joinSep " AND " parts

/-- `ArxivClient._build_query`. -/
def build_query (topic : TopicConfig) : String :=
  queryJoin
    ((if topic.query.«include».isEmpty then [] else
        ["(" ++ joinSep " OR " (topic.query.«include».map keyword_clause) ++ ")"]) ++
     (if topic.query.categories.isEmpty then [] else
        ["(" ++ joinSep " OR " (topic.query.categories.map (fun cat => "cat:" ++ cat)) ++ ")"]) ++
     (if topic.query.exclude.isEmpty then [] else
        ["NOT (" ++ joinSep " OR " (topic.query.exclude.map keyword_clause) ++ ")"]))

/-- One already-decoded Atom `entry` element of the feed response, as read by
`_parse_fallback_response`: `id` is the `atom:id` text (`none` for a missing
element, and the code also skips an empty text); `published`/`updated` are the
results of `dateutil.parser.isoparse` on the corresponding texts (`none` when
the parse raises); `authors` are the non-empty `atom:author/atom:name` texts;
`affiliationTexts` the per-author `arxiv:affiliation` texts (`findtext`
default `""`); `categories` the non-empty `term` attributes. -/
structure FeedEntry where
  id : Option String
  title : String
  summary : String
  published : Option DateTime
  updated : Option DateTime
  authors : List String
  affiliationTexts : List String
  categories : List String
  comment : Option String
deriving DecidableEq

/-- `arxiv_id.split("v")[0]` applied when `"v" in arxiv_id`. -/
def stripVersion (s : String) : String :=
  if pyContains s 'v' then (pySplitOn s "v").headD "" else s

/-- `id_element.text.split("/")[-1]` followed by the version strip. -/
def entryArxivId (idText : String) : String :=
  stripVersion ((pySplitOn idText "/").getLastD "")

/-- The affiliation-deduplication loop of `_parse_fallback_response`. -/
def collectAffiliations (texts : List String) : List String :=
  texts.foldl
    (fun acc t =>
      if t ≠ "" then
        if pyStrip t ≠ "" && !acc.contains (pyStrip t) then acc ++ [pyStrip t] else acc
      else acc) []

/-- `comment = entry.findtext(...); if comment: comment = comment.strip()`. -/
def parseComment (c : Option String) : Option String :=
  match c with
  | none => none
  | some s => if s = "" then some s else some (pyStrip s)

/-- The per-entry body of the loop in `_parse_fallback_response`: `none`
models the `continue` branches (missing/empty id, entry older than the
window threshold); the `utcnow()` fallback of the date parse is the `now`
argument. -/
def parseEntry (topic : TopicConfig) (now thr : DateTime) (e : FeedEntry) :
    Option PaperCandidate :=
  match e.id with
  | none => none
  | some idText =>
    if idText = "" then none
    else if e.published.getD now < thr then none
    else some {
      topic := topic
      arxiv_id := entryArxivId idText
      title := pyStrip e.title
      abstract := pyStrip e.summary
      authors := if e.authors.isEmpty then ["Unknown"] else e.authors
      categories := e.categories
      published := e.published.getD now
      updated := e.updated.getD (e.published.getD now)
      arxiv_url := "https://arxiv.org/abs/" ++ entryArxivId idText
      pdf_url := some ("https://arxiv.org/pdf/" ++ entryArxivId idText ++ ".pdf")
      affiliations := collectAffiliations e.affiliationTexts
      comment := parseComment e.comment }

/-- `ArxivClient._parse_fallback_response`, applied to the decoded entry list
of the Atom feed (the XML decoding itself is `ElementTree`): every entry is
converted in order, with the `continue` branches dropped. -/
def parse_fallback_response (topic : TopicConfig) (thr now : DateTime)
    (entries : List FeedEntry) : List PaperCandidate :=
  entries.filterMap (parseEntry topic now thr)

/-- The query parameters `_fallback_fetch` sends to the arXiv API endpoint. -/
def requestParams (cfg : FetchConfig) (topic : TopicConfig) : List (String × String) :=
  [("search_query", build_query topic), ("sortBy", "submittedDate"),
   ("sortOrder", "descending"), ("start", "0"),
   ("max_results", toString cfg.max_papers_per_topic)]

/-- `ArxivClient._fallback_fetch` on a successful HTTP response whose decoded
entries are `feedEntries`: the parsed candidate list is returned unchanged
(no truncation happens here; the cap reaches the server only through the
`max_results` entry of `requestParams`). This is also the value
`fetch_for_topic` returns when `requests` is available and the parse is
non-empty. -/
def fallback_fetch (cfg : FetchConfig) (topic : TopicConfig) (thr now : DateTime)
    (feedEntries : List FeedEntry) : List PaperCandidate :=
  parse_fallback_response topic thr now feedEntries

end ArxivClient

/-! ## Relevance ranker (`src/filters/relevance_ranker.py`) -/

namespace RelevanceRanker

/-- `RelevanceRanker._keyword_score`. -/
def keyword_score (keywords : List String) (text : String) : ℚ :=
  if keywords.isEmpty then 1/2
  else min 1 (((keywords.filter (fun k => substrB (pyLower k) text)).length : ℚ) /
    ((max 1 keywords.length : Nat) : ℚ))

/-- `RelevanceRanker._novelty_hint`. -/
def novelty_hint (text : String) : ℚ :=
  min 1 (((["novel", "new", "first", "improve", "state-of-the-art"].filter
      (fun w => substrB w text)).length : ℚ) / 3)

/-- `RelevanceRanker._experiment_hint`. -/
def experiment_hint (text : String) : ℚ :=
  min 1 (((["experiment", "evaluation", "benchmark", "dataset", "ablation"].filter
      (fun w => substrB w text)).length : ℚ) / 3)

/-- The per-dimension raw score of `RelevanceRanker._score_heuristic`
(before the `[0, 100]` clip). -/
def heuristic_raw (topic : TopicConfig) (paper : PaperCandidate) (dimName : String) : ℚ :=
  if dimName = "topic_alignment" then
    keyword_score topic.query.«include» (pyLower (joinSep " " [paper.title, paper.abstract])) * 70 +
      keyword_score topic.query.categories (pyLower (joinSep " " [paper.title, paper.abstract])) * 30
  else if dimName = "methodology_fit" then
    keyword_score topic.query.«include»
      (pyLower (joinSep " " [paper.title, paper.abstract]) ++ " " ++ pyLower topic.interest_prompt) * 80
  else if dimName = "novelty" then
    40 + 60 * novelty_hint (pyLower (joinSep " " [paper.title, paper.abstract]))
  else if dimName = "experiment_coverage" then
    30 + 70 * experiment_hint (pyLower (joinSep " " [paper.title, paper.abstract]))
  else 50

/-- `RelevanceRanker._score_heuristic`. -/
def score_heuristic (dims : List RelevanceDimension) (topic : TopicConfig)
    (paper : PaperCandidate) : List DimensionScore :=
  dims.map fun dim =>
    { name := dim.name, weight := dim.weight,
      value := max 0 (min 100 (heuristic_raw topic paper dim.name)) / 100 }

/-- `RelevanceRanker._score_with_llm` after the JSON parse: `resp name`
models `float(data.get(name, {}).get("score", 0))` (so a missing dimension
contributes `0`); the value is clipped to `[0, 100]` then divided by 100. -/
def score_with_llm (dims : List RelevanceDimension) (resp : String → ℚ) : List DimensionScore :=
  dims.map fun dim =>
    { name := dim.name, weight := dim.weight,
      value := max 0 (min 100 (resp dim.name)) / 100 }

/-- The `dimension_scores` local of `RelevanceRanker.score`: the LLM branch
when the oracle answers (`some resp`: client available and the call
succeeded), the heuristic branch otherwise (client `None`, or the call
raised). -/
def dimension_scores (dims : List RelevanceDimension)
    (oracle : PaperCandidate → Option (String → ℚ)) (topic : TopicConfig)
    (paper : PaperCandidate) : List DimensionScore :=
  match oracle paper with
  | some resp => score_with_llm dims resp
  | none => score_heuristic dims topic paper

/-- `RelevanceRanker.score`. -/
def score (dims : List RelevanceDimension) (oracle : PaperCandidate → Option (String → ℚ))
    (topic : TopicConfig) (papers : List PaperCandidate) : List ScoredPaper :=
  papers.map fun paper =>
    { paper := paper
      scores := dimension_scores dims oracle topic paper
      total_score := ((dimension_scores dims oracle topic paper).map
        (fun s => s.weight * s.value)).sum }

end RelevanceRanker

/-! ## Report builder (`src/summaries/report_builder.py`) -/

namespace ReportBuilder

/-- The `total_weight` local of `ReportBuilder._normalised_score`:
`sum(score.weight for score in scored_paper.scores) or 1.0`. -/
def total_weight (scored_paper : ScoredPaper) : ℚ :=
  pyOr ((scored_paper.scores.map DimensionScore.weight).sum) 1

/-- `ReportBuilder._normalised_score`. -/
def normalised_score (scored_paper : ScoredPaper) : ℚ :=
  (scored_paper.scores.map (fun score => score.weight * score.value)).sum /
    total_weight scored_paper * 100

/-- The `key_insight` local of `ReportBuilder._generate_recommendation`:
the first 200 characters of the first finding with confidence above 0.6,
or `""` when there is none. -/
def key_insight (findings : List TaskFinding) : String :=
  match (findings.filter (fun f => (3 : ℚ)/5 < f.confidence)).head? with
  | some f => pyTake f.answer 200
  | none => ""

/-- `ReportBuilder._generate_recommendation`. -/
def generate_recommendation (topic : TopicConfig) (scored_paper : ScoredPaper)
    (findings : List TaskFinding) : String :=
  match pyMaxBy (fun x => x.value * x.weight) scored_paper.scores with
  | some top_dimension =>
    if key_insight findings ≠ "" then
      "This paper scores high in the **" ++ top_dimension.name ++ "** dimension (" ++
        formatFixed 1 (top_dimension.value * 100) ++
        "/100), highly aligned with your research interests in " ++ topic.label ++ "." ++
        " " ++ key_insight findings ++ "..."
    else
      "This paper scores high in the **" ++ top_dimension.name ++ "** dimension (" ++
        formatFixed 1 (top_dimension.value * 100) ++
        "/100), highly aligned with your research interests in " ++ topic.label ++ "."
  | none =>
    "This paper is relevant to your research direction in " ++ topic.label ++
      ", recommended for further reading."

/-- The `lines` list assembled by `ReportBuilder.build`; `now` is the single
`datetime.utcnow()` read (rendered only in the final footer line). -/
def buildLines (topic : TopicConfig) (scored_paper : ScoredPaper)
    (core_summary : Option CoreSummary) (task_list : List TaskItem)
    (findings : List TaskFinding) (overview : String) (brief_summary : String)
    (now : DateTime) : List String :=
  ["# " ++ scored_paper.paper.title, ""] ++
  (if brief_summary ≠ "" then
      (((pySplitOn brief_summary "\n\n").map pyStrip).filter (fun p => p ≠ "")).map
        (fun paragraph => "> " ++ pyReplace paragraph "\n" " ") ++ [""]
    else []) ++
  ["**Topic**: " ++ topic.label,
   "**arXiv**: [" ++ scored_paper.paper.arxiv_id ++ "](" ++ scored_paper.paper.arxiv_url ++ ")",
   "**Authors**: " ++ joinSep ", " scored_paper.paper.authors,
   "**Published**: " ++ scored_paper.paper.published.formatYMD,
   "**Score**: " ++ formatFixed 1 (normalised_score scored_paper),
   "",
   "### 📊 Relevance Scores"] ++
  scored_paper.scores.map (fun score =>
    "- **" ++ score.name ++ "**: " ++ formatFixed 1 (score.value * 100) ++
      "/100 (weight: " ++ formatFixed 2 score.weight ++ ")") ++
  [""] ++
  (match core_summary with
   | some cs =>
       ["## � 论文核心内容", "", "### 1. 主要解决了什么问题？", cs.problem, "",
        "### 2. 提出了什么解决方案？", cs.solution, "", "### 3. 核心方法/步骤/策略",
        cs.methodology, "", "### 4. 实验设计", cs.experiments, "", "### 5. 结论",
        cs.conclusion, ""]
   | none => []) ++
  ["## 🤔 用户关心的问题"] ++
  (List.enumFrom 1 task_list).map (fun p =>
    toString p.1 ++ ". **" ++ p.2.question ++ "** - " ++ p.2.reason) ++
  [""] ++
  ["## 逐项解答"] ++
  findings.flatMap (fun finding =>
    ["### " ++ finding.task.question, pyStrip finding.answer,
     "*Confidence: " ++ formatFixed 2 finding.confidence ++ "*\n"]) ++
  ["## 📝 综合总结", pyOrS (pyStrip overview) (pyStrip scored_paper.paper.abstract), ""] ++
  ["## 💡 为什么推荐这篇论文?", generate_recommendation topic scored_paper findings, ""] ++
  ["---", "*Generated at " ++ now.formatFooter ++ "*"]

/-- `markdown = "\n".join(lines)` in `ReportBuilder.build`. -/
def buildMarkdown (topic : TopicConfig) (scored_paper : ScoredPaper)
    (core_summary : Option CoreSummary) (task_list : List TaskItem)
    (findings : List TaskFinding) (overview : String) (brief_summary : String)
    (now : DateTime) : String :=
  joinSep "\n"
    (buildLines topic scored_paper core_summary task_list findings overview brief_summary now)

/-- `ReportBuilder.build` (the returned `PaperSummary`). -/
def build (topic : TopicConfig) (scored_paper : ScoredPaper)
    (core_summary : Option CoreSummary) (task_list : List TaskItem)
    (findings : List TaskFinding) (overview : String) (brief_summary : String)
    (now : DateTime) : PaperSummary :=
  { paper := scored_paper.paper
    topic := topic
    core_summary := core_summary
    task_list := task_list
    findings := findings
    overview := overview
    score_details := scored_paper
    markdown := buildMarkdown topic scored_paper core_summary task_list findings overview
      brief_summary now
    brief_summary := brief_summary }

end ReportBuilder

/-! ## Static site builder (`src/publisher/static_site.py`) -/

namespace StaticSiteBuilder

/-- The `total_weight` local of `StaticSiteBuilder._format_score`:
`sum(score.weight for score in scored_paper.scores) or 1.0`. -/
def total_weight (scored_paper : ScoredPaper) : ℚ :=
  pyOr ((scored_paper.scores.map DimensionScore.weight).sum) 1

/-- The numeric value `(value / total_weight) * 100` that
`StaticSiteBuilder._format_score` renders. -/
def format_score_value (scored_paper : ScoredPaper) : ℚ :=
  (scored_paper.scores.map (fun score => score.weight * score.value)).sum /
    total_weight scored_paper * 100

/-- `StaticSiteBuilder._format_score` (used for the score on the index and
on each paper page). -/
def format_score (scored_paper : ScoredPaper) : String :=
  formatFixed 1 (format_score_value scored_paper)

/-- One step of the `topic_groups` accumulation in `StaticSiteBuilder.build`
(`defaultdict(list)` keyed by `summary.topic.name`, insertion-ordered). -/
def insertGroup : List (String × List PaperSummary) → PaperSummary →
    List (String × List PaperSummary)
  | [], s => [(s.topic.name, [s])]
  | (k, items) :: rest, s =>
    if k = s.topic.name then (k, items ++ [s]) :: rest
    else (k, items) :: insertGroup rest s

/-- The `topic_groups` mapping of `StaticSiteBuilder.build`. -/
def topic_groups (summaries : List PaperSummary) : List (String × List PaperSummary) :=
  summaries.foldl insertGroup []

/-- The `topics` object of the manifest written by `StaticSiteBuilder.build`:
one key per group, mapped to its summaries' arXiv ids. -/
def manifest_topics (summaries : List PaperSummary) : List (String × List String) :=
  (topic_groups summaries).map (fun g => (g.1, g.2.map (fun s => s.paper.arxiv_id)))

/-- The JSON object written to `manifest.json`. -/
structure Manifest where
  base_url : String
  generated : Option String
  topics : List (String × List String)
deriving DecidableEq

/-- The manifest value assembled in `StaticSiteBuilder.build`;
`pipeline_run_at` is `os.environ.get("PIPELINE_RUN_AT")`, which
`run_pipeline` sets to `datetime.utcnow().isoformat()` before calling
`build`. -/
def buildManifest (base_url : String) (pipeline_run_at : Option String)
    (summaries : List PaperSummary) : Manifest :=
  { base_url := base_url, generated := pipeline_run_at,
    topics := manifest_topics summaries }

end StaticSiteBuilder

/-! ## Orchestrator (`src/workflow/pipeline.py`) -/

namespace Pipeline

/-- The `total_weight` local of `_filter_by_threshold` (and of the per-paper
log line in `run_pipeline`):
`sum(dim.weight for dim in config.relevance.dimensions) or 1.0`. -/
def total_weight (dims : List RelevanceDimension) : ℚ :=
  pyOr ((dims.map RelevanceDimension.weight).sum) 1

/-- The `normalised` score computed inside `_filter_by_threshold` and for
the per-paper progress line. -/
def normalised (dims : List RelevanceDimension) (scored : ScoredPaper) : ℚ :=
  scored.total_score / total_weight dims * 100

/-- `_filter_by_threshold`. -/
def filter_by_threshold (dims : List RelevanceDimension) (pass_threshold : ℚ)
    (scored_papers : List ScoredPaper) : List ScoredPaper :=
  scored_papers.filter (fun scored => pass_threshold ≤ normalised dims scored)

end Pipeline

/-! ## Shared lemmas -/

theorem pyOr_one_ne_zero (x : ℚ) : pyOr x 1 ≠ 0 := by
  unfold pyOr
  split
  · norm_num
  · assumption

theorem pyOrS_ne_empty (s d : String) (hd : d ≠ "") : pyOrS s d ≠ "" := by
  unfold pyOrS
  split
  · exact hd
  · assumption

theorem clamp01_bounds (x : ℚ) : 0 ≤ max 0 (min 1 x) ∧ max 0 (min 1 x) ≤ 1 :=
  ⟨le_max_left 0 _, max_le (by norm_num) (min_le_left 1 x)⟩

theorem clip100_div_bounds (x : ℚ) :
    0 ≤ max 0 (min 100 x) / 100 ∧ max 0 (min 100 x) / 100 ≤ 1 := by
  constructor
  · positivity
  · rw [div_le_one (by norm_num)]
    exact max_le (by norm_num) (min_le_left 100 x)

theorem joinSep_cons_ne_nil (sep a : String) (l : List String) (h : l ≠ []) :
    joinSep sep (a :: l) = a ++ sep ++ joinSep sep l := by
  cases l with
  | nil => exact absurd rfl h
  | cons b t => rfl

theorem joinSep_append_singleton (sep : String) (A : List String) (x : String) :
    ∃ s, joinSep sep (A ++ [x]) = s ++ x := by
  induction A with
  | nil => exact ⟨"", (String.empty_append x).symm⟩
  | cons a A ih =>
    obtain ⟨s, hs⟩ := ih
    refine ⟨a ++ sep ++ s, ?_⟩
    rw [List.cons_append, joinSep_cons_ne_nil sep a (A ++ [x]) (by simp), hs,
      String.append_assoc, String.append_assoc, String.append_assoc]

theorem dropLast_append_pair {α : Type} (l : List α) (a b : α) :
    (l ++ [a, b]).dropLast = l ++ [a] := by
  have h : l ++ [a, b] = (l ++ [a]) ++ [b] := by simp
  rw [h, List.dropLast_concat]

theorem pyFoldMax_spec {α : Type} (key : α → ℚ) (xs : List α) : ∀ b : α,
    (xs.foldl (fun best y => if key best < key y then y else best) b = b ∨
      xs.foldl (fun best y => if key best < key y then y else best) b ∈ xs) ∧
    key b ≤ key (xs.foldl (fun best y => if key best < key y then y else best) b) ∧
    ∀ x ∈ xs, key x ≤ key (xs.foldl (fun best y => if key best < key y then y else best) b) := by
  induction xs with
  | nil => exact fun b => ⟨Or.inl rfl, le_refl _, by simp⟩
  | cons x xs ih =>
    intro b
    obtain ⟨hmem, hb, hall⟩ := ih (if key b < key x then x else b)
    have hble : key b ≤ key (if key b < key x then x else b) := by
      split
      · exact le_of_lt (by assumption)
      · exact le_refl _
    have hxle : key x ≤ key (if key b < key x then x else b) := by
      split
      · exact le_refl _
      · exact le_of_not_lt (by assumption)
    refine ⟨?_, le_trans hble hb, ?_⟩
    · rcases hmem with h | h
      · rw [List.foldl_cons, h]
        split
        · exact Or.inr (List.mem_cons_self _ _)
        · exact Or.inl rfl
      · exact Or.inr (List.mem_cons_of_mem _ h)
    · intro z hz
      rcases List.mem_cons.mp hz with rfl | hz
      · exact le_trans hxle hb
      · exact hall z hz

theorem pyMaxBy_spec {α : Type} (key : α → ℚ) (l : List α) (h : l ≠ []) :
    ∃ m, pyMaxBy key l = some m ∧ m ∈ l ∧ ∀ x ∈ l, key x ≤ key m := by
  cases l with
  | nil => exact absurd rfl h
  | cons x xs =>
    obtain ⟨hmem, hx, hall⟩ := pyFoldMax_spec key xs x
    refine ⟨_, rfl, ?_, ?_⟩
    · rcases hmem with h | h
      · rw [h]; exact List.mem_cons_self _ _
      · exact List.mem_cons_of_mem _ h
    · intro z hz
      rcases List.mem_cons.mp hz with rfl | hz
      · exact hx
      · exact hall z hz

theorem questionStep_length (acc : List TaskItem) (item : String × String) :
    (TaskReader.questionStep acc item).length ≤ acc.length + 1 := by
  unfold TaskReader.questionStep
  split <;> simp

theorem foldl_questionStep_length (l : List (String × String)) :
    ∀ acc : List TaskItem, (l.foldl TaskReader.questionStep acc).length ≤ acc.length + l.length := by
  induction l with
  | nil => simp
  | cons i l ih =>
    intro acc
    have h1 := ih (TaskReader.questionStep acc i)
    have h2 := questionStep_length acc i
    simp only [List.foldl_cons, List.length_cons]
    omega

/-- C1: the claim asserts every produced task list has between 3 and 5 items,
the offline / no-interest-prompt fallback included. The offline fallback of
`TaskReader._generate_interest_questions` returns exactly the two-item default
list, so the list has 2 < 3 items and no top-up happens. -/
theorem C1_counterexample :
    (TaskReader.generate_interest_questions false "deep retrieval" none).length = 2 ∧
    ¬ (3 ≤ (TaskReader.generate_interest_questions false "deep retrieval" none).length) := by
  decide

/-- C1 (amended): the task list produced by
`TaskReader._generate_interest_questions` always has between 1 and 5 items:
at most the first five valid LLM questions are kept, and the fallback list
(used offline, on an empty interest prompt, on an LLM failure, and when no
valid question is returned) has exactly two items; there is no top-up to
three. -/
theorem C1_amended (client_available : Bool) (interest_prompt : String)
    (llm_questions : Option (List (String × String))) :
    1 ≤ (TaskReader.generate_interest_questions client_available interest_prompt
        llm_questions).length ∧
      (TaskReader.generate_interest_questions client_available interest_prompt
        llm_questions).length ≤ 5 := by
  unfold TaskReader.generate_interest_questions
  split
  · exact ⟨by decide, by decide⟩
  · cases llm_questions with
    | none => exact ⟨by decide, by decide⟩
    | some questions =>
      dsimp only
      cases hq : ((questions.take 5).foldl TaskReader.questionStep []).isEmpty with
      | true =>
        rw [if_pos rfl]
        exact ⟨by decide, by decide⟩
      | false =>
        simp only [Bool.false_eq_true, if_false]
        have hlen := foldl_questionStep_length (questions.take 5) []
        have htake : (questions.take 5).length ≤ 5 := questions.length_take_le 5
        have hpos : ((questions.take 5).foldl TaskReader.questionStep []).length ≠ 0 := by
          intro h0
          have hnil : (questions.take 5).foldl TaskReader.questionStep [] = [] :=
            List.length_eq_zero.mp h0
          rw [hnil] at hq
          simp at hq
        simp only [List.length_nil] at hlen
        exact ⟨by omega, by omega⟩

theorem answerOf_confidence_bounds (oracle : TaskItem → Option TaskReader.LLMAnswerResponse)
    (markdown : String) (task : TaskItem) :
    0 ≤ (TaskReader.answerOf oracle markdown task).2 ∧
      (TaskReader.answerOf oracle markdown task).2 ≤ 1 := by
  unfold TaskReader.answerOf
  cases oracle task with
  | some resp =>
    unfold TaskReader.answer_with_quotes
    exact clamp01_bounds _
  | none =>
    unfold TaskReader.answer_heuristic
    exact clamp01_bounds _

theorem answerOf_heuristic_ne_empty (oracle : TaskItem → Option TaskReader.LLMAnswerResponse)
    (markdown : String) (task : TaskItem) (h : oracle task = none) :
    (TaskReader.answerOf oracle markdown task).1 ≠ "" := by
  unfold TaskReader.answerOf
  rw [h]
  unfold TaskReader.answer_heuristic
  exact pyOrS_ne_empty _ _ (by decide)

/-- C2: the claim asserts every finding's answer is non-empty in both the
LLM path and the heuristic path. In the LLM path
(`TaskReader._answer_with_quotes`), `data.get("answer", ...)` only defaults
when the key is absent: an LLM reply whose `answer` field is the empty
string produces a finding with an empty answer. -/
theorem C2_counterexample :
    (TaskReader.analyseFindings
        (fun _ => some { answer := some "", confidence := some (1/2) })
        [{ question := "q", reason := "r" }] "Some text.").map TaskFinding.answer = [""] := by
  with_unfolding_all decide

/-- C2 (amended): the findings loop of `TaskReader.analyse` produces exactly
one finding per task, pairwise aligned (the i-th finding's `task` is the i-th
task), with confidence always a rational in `[0, 1]`; the answer is
guaranteed non-empty in the heuristic path (it falls back to the literal
`"No sufficient information"`), while in the LLM path the answer defaults to
a non-empty placeholder only when the `answer` field is absent and may be
empty when the LLM supplies an empty string. -/
theorem C2_amended (oracle : TaskItem → Option TaskReader.LLMAnswerResponse)
    (tasks : List TaskItem) (markdown : String) :
    (TaskReader.analyseFindings oracle tasks markdown).map TaskFinding.task = tasks ∧
    ∀ f ∈ TaskReader.analyseFindings oracle tasks markdown,
      (0 ≤ f.confidence ∧ f.confidence ≤ 1) ∧ (oracle f.task = none → f.answer ≠ "") := by
  constructor
  · unfold TaskReader.analyseFindings
    rw [List.map_map]
    exact List.map_id tasks
  · intro f hf
    obtain ⟨task, htask, rfl⟩ := List.mem_map.mp hf
    exact ⟨answerOf_confidence_bounds oracle markdown task,
      fun h => answerOf_heuristic_ne_empty oracle markdown task h⟩

/-- Witness for C2 (amended) at a concrete offline input. -/
theorem C2_witness :
    (TaskReader.analyseFindings (fun _ => none)
        [({ question := "q", reason := "r" } : TaskItem)] "Hello.").map TaskFinding.task =
      [({ question := "q", reason := "r" } : TaskItem)] ∧
    ∀ f ∈ TaskReader.analyseFindings (fun _ => none)
        [({ question := "q", reason := "r" } : TaskItem)] "Hello.",
      (0 ≤ f.confidence ∧ f.confidence ≤ 1) ∧
        ((fun (_ : TaskItem) => (none : Option TaskReader.LLMAnswerResponse)) f.task = none →
          f.answer ≠ "") :=
  C2_amended (fun _ => none) [{ question := "q", reason := "r" }] "Hello."

theorem parseEntry_topic (t t' : TopicConfig) (now thr : DateTime) (e : ArxivClient.FeedEntry) :
    ArxivClient.parseEntry t' now thr e =
      (ArxivClient.parseEntry t now thr e).map (fun c => { c with topic := t' }) := by
  unfold ArxivClient.parseEntry
  cases e.id with
  | none => rfl
  | some idText =>
    dsimp only
    by_cases h1 : idText = ""
    · rw [if_pos h1, if_pos h1]
      rfl
    · rw [if_neg h1, if_neg h1]
      by_cases h2 : (e.published.getD now) < thr
      · rw [if_pos h2, if_pos h2]
        rfl
      · rw [if_neg h2, if_neg h2]
        rfl

/-- C3: the claim asserts the exclusion is applied as a post-filter on the
parsed entries. `_parse_fallback_response` applies no such filter: with
`exclude_keywords = ["survey"]`, a feed entry titled "A survey of retrieval"
inside the window is returned, and its lowercased title + " " + abstract
contains the exclude keyword. -/
theorem C3_counterexample :
    (ArxivClient.parse_fallback_response
        ⟨"t", "T", ⟨["cs.IR"], ["retrieval"], ["survey"]⟩, "p"⟩
        ⟨2024, 1, 1, 0, 0, 0⟩ ⟨2024, 1, 3, 0, 0, 0⟩
        [⟨some "http://arxiv.org/abs/1234.5678", "A survey of retrieval", "Overview.",
          some ⟨2024, 1, 2, 0, 0, 0⟩, none, ["A"], [], ["cs.IR"], none⟩]).map
      (fun c => substrB "survey" (pyLower (c.title ++ " " ++ c.abstract))) = [true] := by
  with_unfolding_all decide

/-- C3 (amended): exclude keywords are handled only inside the outgoing query
string — `_build_query` renders them as a negated `NOT (...)` group — while
`_parse_fallback_response` ignores `exclude_keywords` entirely: its output is
unchanged (up to the stored back-reference to the topic) under any
replacement of the exclude list, so entries containing an exclude keyword are
not filtered out of the parsed response. -/
theorem C3_amended (topic : TopicConfig) (thr now : DateTime)
    (entries : List ArxivClient.FeedEntry) (ex : List String)
    (hex : topic.query.exclude ≠ []) :
    (∃ s₁ s₂, ArxivClient.build_query topic = s₁ ++ "NOT (" ++ s₂) ∧
    ArxivClient.parse_fallback_response
        { topic with query := { topic.query with exclude := ex } } thr now entries =
      (ArxivClient.parse_fallback_response topic thr now entries).map
        (fun c => { c with topic := { topic with query := { topic.query with exclude := ex } } }) := by
  constructor
  · unfold ArxivClient.build_query
    rw [if_neg (show ¬(topic.query.exclude.isEmpty = true) by
      simp [List.isEmpty_iff, hex])]
    unfold ArxivClient.queryJoin
    rw [if_neg (show ¬((((if topic.query.«include».isEmpty = true then [] else
          ["(" ++ joinSep " OR " (topic.query.«include».map ArxivClient.keyword_clause) ++ ")"]) ++
        (if topic.query.categories.isEmpty = true then [] else
          ["(" ++ joinSep " OR " (topic.query.categories.map (fun cat => "cat:" ++ cat)) ++ ")"])) ++
        ["NOT (" ++ joinSep " OR " (topic.query.exclude.map ArxivClient.keyword_clause) ++ ")"]).isEmpty
          = true) by simp)]
    obtain ⟨s, hs⟩ := joinSep_append_singleton " AND "
      ((if topic.query.«include».isEmpty = true then [] else
          ["(" ++ joinSep " OR " (topic.query.«include».map ArxivClient.keyword_clause) ++ ")"]) ++
        (if topic.query.categories.isEmpty = true then [] else
          ["(" ++ joinSep " OR " (topic.query.categories.map (fun cat => "cat:" ++ cat)) ++ ")"]))
      ("NOT (" ++ joinSep " OR " (topic.query.exclude.map ArxivClient.keyword_clause) ++ ")")
    refine ⟨s, joinSep " OR " (topic.query.exclude.map ArxivClient.keyword_clause) ++ ")", ?_⟩
    rw [hs]
    simp [String.append_assoc]
  · unfold ArxivClient.parse_fallback_response
    rw [List.map_filterMap]
    exact List.filterMap_congr (fun e _ => parseEntry_topic topic _ now thr e)

/-- Witness for C3 (amended) at a concrete topic with a non-empty exclude
list. -/
theorem C3_witness :
    ((["survey"] : List String) ≠ []) ∧
    ((∃ s₁ s₂, ArxivClient.build_query ⟨"t", "T", ⟨["cs.IR"], ["retrieval"], ["survey"]⟩, "p"⟩ =
        s₁ ++ "NOT (" ++ s₂) ∧
      ArxivClient.parse_fallback_response
          { (⟨"t", "T", ⟨["cs.IR"], ["retrieval"], ["survey"]⟩, "p"⟩ : TopicConfig) with
            query := { (⟨["cs.IR"], ["retrieval"], ["survey"]⟩ : TopicQuery) with
              exclude := ["x"] } } ⟨2024, 1, 1, 0, 0, 0⟩ ⟨2024, 1, 3, 0, 0, 0⟩ [] =
        (ArxivClient.parse_fallback_response
            ⟨"t", "T", ⟨["cs.IR"], ["retrieval"], ["survey"]⟩, "p"⟩
            ⟨2024, 1, 1, 0, 0, 0⟩ ⟨2024, 1, 3, 0, 0, 0⟩ []).map
          (fun c => { c with
            topic := { (⟨"t", "T", ⟨["cs.IR"], ["retrieval"], ["survey"]⟩, "p"⟩ : TopicConfig) with
              query := { (⟨["cs.IR"], ["retrieval"], ["survey"]⟩ : TopicQuery) with
                exclude := ["x"] } } })) :=
  ⟨by decide,
    C3_amended ⟨"t", "T", ⟨["cs.IR"], ["retrieval"], ["survey"]⟩, "p"⟩
      ⟨2024, 1, 1, 0, 0, 0⟩ ⟨2024, 1, 3, 0, 0, 0⟩ [] ["x"] (by decide)⟩

/-- C4: the claim asserts every candidate returned on every feed response has
`published` within `[now − days_back, now]` and that the list length is at
most `max_papers_per_topic`. With `max_papers_per_topic = 1`, a feed response
carrying two entries whose `published` lies after `now` yields a list of
length 2 (no truncation of the parsed response) whose candidates all violate
the upper window bound (no `published ≤ now` check exists). -/
theorem C4_counterexample :
    (ArxivClient.fallback_fetch ⟨1, 7, 1⟩ ⟨"t", "T", ⟨[], [], []⟩, ""⟩
        ⟨2024, 1, 1, 0, 0, 0⟩ ⟨2024, 1, 3, 0, 0, 0⟩
        [⟨some "1", "T1", "A1", some ⟨2024, 1, 5, 0, 0, 0⟩, none, [], [], [], none⟩,
         ⟨some "2", "T2", "A2", some ⟨2024, 1, 6, 0, 0, 0⟩, none, [], [], [], none⟩]).length = 2 ∧
    ¬ ((ArxivClient.fallback_fetch ⟨1, 7, 1⟩ ⟨"t", "T", ⟨[], [], []⟩, ""⟩
        ⟨2024, 1, 1, 0, 0, 0⟩ ⟨2024, 1, 3, 0, 0, 0⟩
        [⟨some "1", "T1", "A1", some ⟨2024, 1, 5, 0, 0, 0⟩, none, [], [], [], none⟩,
         ⟨some "2", "T2", "A2", some ⟨2024, 1, 6, 0, 0, 0⟩, none, [], [], [], none⟩]).length ≤ 1) ∧
    (ArxivClient.fallback_fetch ⟨1, 7, 1⟩ ⟨"t", "T", ⟨[], [], []⟩, ""⟩
        ⟨2024, 1, 1, 0, 0, 0⟩ ⟨2024, 1, 3, 0, 0, 0⟩
        [⟨some "1", "T1", "A1", some ⟨2024, 1, 5, 0, 0, 0⟩, none, [], [], [], none⟩,
         ⟨some "2", "T2", "A2", some ⟨2024, 1, 6, 0, 0, 0⟩, none, [], [], [], none⟩]).map
      (fun c => decide ((⟨2024, 1, 3, 0, 0, 0⟩ : DateTime) < c.published)) = [true, true] := by
  with_unfolding_all decide

/-- C4 (amended): on every feed response, each candidate returned by
`_fallback_fetch` satisfies the lower window bound
`threshold_date ≤ published` (entries older than the threshold are skipped);
the upper bound and the length cap are not enforced on the parsed response —
the cap is only requested from the server through the `max_results` query
parameter. -/
theorem C4_amended (cfg : ArxivClient.FetchConfig) (topic : TopicConfig) (thr now : DateTime)
    (entries : List ArxivClient.FeedEntry) (c : PaperCandidate)
    (hc : c ∈ ArxivClient.fallback_fetch cfg topic thr now entries) :
    thr ≤ c.published ∧
      ("max_results", toString cfg.max_papers_per_topic) ∈ ArxivClient.requestParams cfg topic := by
  refine ⟨?_, by simp [ArxivClient.requestParams]⟩
  obtain ⟨e, _, hp⟩ := List.mem_filterMap.mp hc
  unfold ArxivClient.parseEntry at hp
  rcases hid : e.id with _ | idText
  · rw [hid] at hp
    exact absurd hp (by simp)
  · rw [hid] at hp
    dsimp only at hp
    by_cases h1 : idText = ""
    · rw [if_pos h1] at hp
      exact absurd hp (by simp)
    · rw [if_neg h1] at hp
      by_cases h2 : (e.published.getD now) < thr
      · rw [if_pos h2] at hp
        exact absurd hp (by simp)
      · rw [if_neg h2] at hp
        have hc' := Option.some.inj hp
        have hpub : c.published = e.published.getD now := by rw [← hc']
        rw [hpub]
        exact Nat.le_of_not_lt h2

/-- Witness for C4 (amended) at a concrete in-window entry. -/
theorem C4_witness :
    ({ topic := ⟨"t", "T", ⟨[], [], []⟩, ""⟩, arxiv_id := "1", title := "T", abstract := "A",
       authors := ["Unknown"], categories := [], published := ⟨2024, 1, 2, 0, 0, 0⟩,
       updated := ⟨2024, 1, 2, 0, 0, 0⟩, arxiv_url := "https://arxiv.org/abs/1",
       pdf_url := some "https://arxiv.org/pdf/1.pdf", affiliations := [],
       comment := none } : PaperCandidate) ∈
      ArxivClient.fallback_fetch ⟨5, 7, 1⟩ ⟨"t", "T", ⟨[], [], []⟩, ""⟩
        ⟨2024, 1, 1, 0, 0, 0⟩ ⟨2024, 1, 3, 0, 0, 0⟩
        [⟨some "1", "T", "A", some ⟨2024, 1, 2, 0, 0, 0⟩, none, [], [], [], none⟩] ∧
    ((⟨2024, 1, 1, 0, 0, 0⟩ : DateTime) ≤ (⟨2024, 1, 2, 0, 0, 0⟩ : DateTime) ∧
      ("max_results", toString (5 : Nat)) ∈
        ArxivClient.requestParams ⟨5, 7, 1⟩ ⟨"t", "T", ⟨[], [], []⟩, ""⟩) :=
  ⟨by with_unfolding_all decide,
    C4_amended ⟨5, 7, 1⟩ ⟨"t", "T", ⟨[], [], []⟩, ""⟩ ⟨2024, 1, 1, 0, 0, 0⟩
      ⟨2024, 1, 3, 0, 0, 0⟩
      [⟨some "1", "T", "A", some ⟨2024, 1, 2, 0, 0, 0⟩, none, [], [], [], none⟩]
      { topic := ⟨"t", "T", ⟨[], [], []⟩, ""⟩, arxiv_id := "1", title := "T", abstract := "A",
        authors := ["Unknown"], categories := [], published := ⟨2024, 1, 2, 0, 0, 0⟩,
        updated := ⟨2024, 1, 2, 0, 0, 0⟩, arxiv_url := "https://arxiv.org/abs/1",
        pdf_url := some "https://arxiv.org/pdf/1.pdf", affiliations := [],
        comment := none }
      (by with_unfolding_all decide)⟩

theorem dimension_scores_shape (dims : List RelevanceDimension)
    (oracle : PaperCandidate → Option (String → ℚ)) (topic : TopicConfig)
    (paper : PaperCandidate) :
    ∃ f : RelevanceDimension → ℚ,
      RelevanceRanker.dimension_scores dims oracle topic paper =
        dims.map (fun dim =>
          { name := dim.name, weight := dim.weight,
            value := max 0 (min 100 (f dim)) / 100 }) := by
  unfold RelevanceRanker.dimension_scores
  cases oracle paper with
  | some resp => exact ⟨fun d => resp d.name, rfl⟩
  | none => exact ⟨fun d => RelevanceRanker.heuristic_raw topic paper d.name, rfl⟩

theorem normalised_score_bounds (sp : ScoredPaper)
    (hw : ∀ ds ∈ sp.scores, 0 ≤ ds.weight)
    (hv : ∀ ds ∈ sp.scores, 0 ≤ ds.value ∧ ds.value ≤ 1) :
    0 ≤ ReportBuilder.normalised_score sp ∧ ReportBuilder.normalised_score sp ≤ 100 := by
  unfold ReportBuilder.normalised_score ReportBuilder.total_weight pyOr
  have h0T : 0 ≤ (sp.scores.map (fun s => s.weight * s.value)).sum := by
    apply List.sum_nonneg
    intro x hx
    obtain ⟨ds, hds, rfl⟩ := List.mem_map.mp hx
    exact mul_nonneg (hw ds hds) (hv ds hds).1
  have h0W : 0 ≤ (sp.scores.map DimensionScore.weight).sum := by
    apply List.sum_nonneg
    intro x hx
    obtain ⟨ds, hds, rfl⟩ := List.mem_map.mp hx
    exact hw ds hds
  have hTW : (sp.scores.map (fun s => s.weight * s.value)).sum ≤
      (sp.scores.map DimensionScore.weight).sum :=
    List.sum_le_sum (fun ds hds => mul_le_of_le_one_right (hw ds hds) (hv ds hds).2)
  by_cases hW0 : (sp.scores.map DimensionScore.weight).sum = 0
  · rw [if_pos hW0]
    have hT0 : (sp.scores.map (fun s => s.weight * s.value)).sum = 0 :=
      le_antisymm (hW0 ▸ hTW) h0T
    rw [hT0]
    norm_num
  · rw [if_neg hW0]
    have hWpos : 0 < (sp.scores.map DimensionScore.weight).sum :=
      lt_of_le_of_ne h0W (Ne.symm hW0)
    constructor
    · exact mul_nonneg (div_nonneg h0T h0W) (by norm_num)
    · have h1 : (sp.scores.map (fun s => s.weight * s.value)).sum /
          (sp.scores.map DimensionScore.weight).sum ≤ 1 := (div_le_one hWpos).mpr hTW
      calc (sp.scores.map (fun s => s.weight * s.value)).sum /
            (sp.scores.map DimensionScore.weight).sum * 100
          ≤ 1 * 100 := mul_le_mul_of_nonneg_right h1 (by norm_num)
        _ = 100 := by norm_num

/-- C5: `RelevanceRanker.score` returns one `ScoredPaper` per candidate in
input order; in both the LLM and the heuristic path each carries exactly one
`DimensionScore` per configured dimension with the configured names and
weights (in configuration order), every value lies in `[0, 1]`, the total is
the weighted sum, and — when all configured weights are non-negative — the
normalized score (computed as everywhere in the code with the
`Σweight or 1.0` denominator) lies in `[0, 100]`. -/
theorem C5 (dims : List RelevanceDimension) (oracle : PaperCandidate → Option (String → ℚ))
    (topic : TopicConfig) (papers : List PaperCandidate)
    (hw : ∀ d ∈ dims, 0 ≤ d.weight) :
    (RelevanceRanker.score dims oracle topic papers).map ScoredPaper.paper = papers ∧
    ∀ sp ∈ RelevanceRanker.score dims oracle topic papers,
      sp.scores.map DimensionScore.name = dims.map RelevanceDimension.name ∧
      sp.scores.map DimensionScore.weight = dims.map RelevanceDimension.weight ∧
      (∀ ds ∈ sp.scores, 0 ≤ ds.value ∧ ds.value ≤ 1) ∧
      sp.total_score = (sp.scores.map (fun s => s.weight * s.value)).sum ∧
      0 ≤ ReportBuilder.normalised_score sp ∧ ReportBuilder.normalised_score sp ≤ 100 := by
  constructor
  · unfold RelevanceRanker.score
    rw [List.map_map]
    exact List.map_id papers
  · intro sp hsp
    obtain ⟨paper, hpaper, rfl⟩ := List.mem_map.mp hsp
    obtain ⟨f, hf⟩ := dimension_scores_shape dims oracle topic paper
    dsimp only
    rw [hf]
    have hweights : ((dims.map (fun dim =>
        ({ name := dim.name, weight := dim.weight,
           value := max 0 (min 100 (f dim)) / 100 } : DimensionScore))).map
          DimensionScore.weight) = dims.map RelevanceDimension.weight := by
      rw [List.map_map]
      rfl
    have hvals : ∀ ds ∈ dims.map (fun dim =>
        ({ name := dim.name, weight := dim.weight,
           value := max 0 (min 100 (f dim)) / 100 } : DimensionScore)),
        0 ≤ ds.value ∧ ds.value ≤ 1 := by
      intro ds hds
      obtain ⟨d, hd, rfl⟩ := List.mem_map.mp hds
      exact clip100_div_bounds (f d)
    have hws : ∀ ds ∈ dims.map (fun dim =>
        ({ name := dim.name, weight := dim.weight,
           value := max 0 (min 100 (f dim)) / 100 } : DimensionScore)),
        0 ≤ ds.weight := by
      intro ds hds
      obtain ⟨d, hd, rfl⟩ := List.mem_map.mp hds
      exact hw d hd
    refine ⟨?_, hweights, hvals, rfl, ?_⟩
    · rw [List.map_map]
      rfl
    · exact normalised_score_bounds
        { paper := paper
          scores := dims.map (fun dim =>
            { name := dim.name, weight := dim.weight,
              value := max 0 (min 100 (f dim)) / 100 })
          total_score := ((dims.map (fun dim =>
            ({ name := dim.name, weight := dim.weight,
               value := max 0 (min 100 (f dim)) / 100 } : DimensionScore))).map
              (fun s => s.weight * s.value)).sum }
        hws hvals

/-- Witness for C5 at a concrete offline scoring run. -/
theorem C5_witness :
    (∀ d ∈ [({ name := "topic_alignment", weight := 1/2, description := none } :
        RelevanceDimension)], 0 ≤ d.weight) ∧
    ((RelevanceRanker.score [{ name := "topic_alignment", weight := 1/2, description := none }]
        (fun _ => none) ⟨"t", "T", ⟨[], [], []⟩, ""⟩
        [⟨⟨"t", "T", ⟨[], [], []⟩, ""⟩, "id1", "Title", "Abstract", [], [],
          ⟨2024, 1, 1, 0, 0, 0⟩, ⟨2024, 1, 1, 0, 0, 0⟩, "u", none, [], none⟩]).map
        ScoredPaper.paper =
      [⟨⟨"t", "T", ⟨[], [], []⟩, ""⟩, "id1", "Title", "Abstract", [], [],
        ⟨2024, 1, 1, 0, 0, 0⟩, ⟨2024, 1, 1, 0, 0, 0⟩, "u", none, [], none⟩] ∧
    ∀ sp ∈ RelevanceRanker.score [{ name := "topic_alignment", weight := 1/2, description := none }]
        (fun _ => none) ⟨"t", "T", ⟨[], [], []⟩, ""⟩
        [⟨⟨"t", "T", ⟨[], [], []⟩, ""⟩, "id1", "Title", "Abstract", [], [],
          ⟨2024, 1, 1, 0, 0, 0⟩, ⟨2024, 1, 1, 0, 0, 0⟩, "u", none, [], none⟩],
      sp.scores.map DimensionScore.name =
        [({ name := "topic_alignment", weight := 1/2, description := none } :
          RelevanceDimension)].map RelevanceDimension.name ∧
      sp.scores.map DimensionScore.weight =
        [({ name := "topic_alignment", weight := 1/2, description := none } :
          RelevanceDimension)].map RelevanceDimension.weight ∧
      (∀ ds ∈ sp.scores, 0 ≤ ds.value ∧ ds.value ≤ 1) ∧
      sp.total_score = (sp.scores.map (fun s => s.weight * s.value)).sum ∧
      0 ≤ ReportBuilder.normalised_score sp ∧ ReportBuilder.normalised_score sp ≤ 100) :=
  ⟨by with_unfolding_all decide,
    C5 [{ name := "topic_alignment", weight := 1/2, description := none }] (fun _ => none)
      ⟨"t", "T", ⟨[], [], []⟩, ""⟩
      [⟨⟨"t", "T", ⟨[], [], []⟩, ""⟩, "id1", "Title", "Abstract", [], [],
        ⟨2024, 1, 1, 0, 0, 0⟩, ⟨2024, 1, 1, 0, 0, 0⟩, "u", none, [], none⟩]
      (by with_unfolding_all decide)⟩

/-- C6: `ReportBuilder.build` is a pure function of its inputs plus a single
clock read rendered only in the final footer line: two invocations with
identical inputs (and the same clock value, since `buildMarkdown` is a
function) produce byte-identical Markdown, and every line except the footer
is independent of the clock. -/
theorem C6 (topic : TopicConfig) (scored_paper : ScoredPaper) (core_summary : Option CoreSummary)
    (task_list : List TaskItem) (findings : List TaskFinding) (overview brief_summary : String)
    (n₁ n₂ : DateTime) :
    (ReportBuilder.buildLines topic scored_paper core_summary task_list findings overview
        brief_summary n₁).dropLast =
      (ReportBuilder.buildLines topic scored_paper core_summary task_list findings overview
        brief_summary n₂).dropLast ∧
    ReportBuilder.buildMarkdown topic scored_paper core_summary task_list findings overview
        brief_summary n₁ =
      joinSep "\n" (ReportBuilder.buildLines topic scored_paper core_summary task_list findings
        overview brief_summary n₁) := by
  constructor
  · unfold ReportBuilder.buildLines
    rw [dropLast_append_pair, dropLast_append_pair]
  · rfl

/-- C7: the claim asserts the "why recommended" paragraph references the
top-weighted dimension (the greatest configured weight). The code picks
`max(scores, key=value*weight)`: with dimensions A (weight 0.9, value 0.1,
product 0.09) and B (weight 0.5, value 0.5, product 0.25), A is the
top-weighted dimension, yet the paragraph names B and never mentions A. -/
theorem C7_counterexample :
    ((1 : ℚ)/2 < 9/10) ∧
    substrB "A" (ReportBuilder.generate_recommendation ⟨"t", "retrieval", ⟨[], [], []⟩, ""⟩
      ⟨⟨⟨"t", "retrieval", ⟨[], [], []⟩, ""⟩, "id1", "Title", "Abs", [], [],
        ⟨2024, 1, 1, 0, 0, 0⟩, ⟨2024, 1, 1, 0, 0, 0⟩, "u", none, [], none⟩,
       [⟨"A", 9/10, 1/10⟩, ⟨"B", 1/2, 1/2⟩], 0⟩ []) = false ∧
    substrB "**B**" (ReportBuilder.generate_recommendation ⟨"t", "retrieval", ⟨[], [], []⟩, ""⟩
      ⟨⟨⟨"t", "retrieval", ⟨[], [], []⟩, ""⟩, "id1", "Title", "Abs", [], [],
        ⟨2024, 1, 1, 0, 0, 0⟩, ⟨2024, 1, 1, 0, 0, 0⟩, "u", none, [], none⟩,
       [⟨"A", 9/10, 1/10⟩, ⟨"B", 1/2, 1/2⟩], 0⟩ []) = true := by
  with_unfolding_all decide

/-- C7 (amended): for a non-empty dimension list the "why recommended"
paragraph references the dimension with the greatest `value * weight`
product (the first such on ties, per Python `max`), not the greatest
configured weight; and when some finding has confidence strictly above 0.6
and the first 200 characters of the first such finding's answer are
non-empty, the paragraph ends with that 200-character excerpt followed by
`"..."`. -/
theorem C7_amended (topic : TopicConfig) (scored_paper : ScoredPaper)
    (findings : List TaskFinding) (h : scored_paper.scores ≠ []) :
    ∃ td s₂,
      pyMaxBy (fun x => x.value * x.weight) scored_paper.scores = some td ∧
      td ∈ scored_paper.scores ∧
      (∀ d ∈ scored_paper.scores, d.value * d.weight ≤ td.value * td.weight) ∧
      ReportBuilder.generate_recommendation topic scored_paper findings =
        "This paper scores high in the **" ++ td.name ++ "** dimension (" ++ s₂ ∧
      (ReportBuilder.key_insight findings ≠ "" →
        ∃ s₁, ReportBuilder.generate_recommendation topic scored_paper findings =
          s₁ ++ " " ++ ReportBuilder.key_insight findings ++ "...") := by
  obtain ⟨td, hmax, hmem, hall⟩ := pyMaxBy_spec (fun x => x.value * x.weight) scored_paper.scores h
  unfold ReportBuilder.generate_recommendation
  rw [hmax]
  dsimp only
  by_cases hk : ReportBuilder.key_insight findings ≠ ""
  · rw [if_pos hk]
    refine ⟨td, formatFixed 1 (td.value * 100) ++
        "/100), highly aligned with your research interests in " ++ topic.label ++ "." ++
        " " ++ ReportBuilder.key_insight findings ++ "...", rfl, hmem, hall, ?_, ?_⟩
    · simp [String.append_assoc]
    · intro _
      refine ⟨"This paper scores high in the **" ++ td.name ++ "** dimension (" ++
        formatFixed 1 (td.value * 100) ++
        "/100), highly aligned with your research interests in " ++ topic.label ++ ".", ?_⟩
      simp [String.append_assoc]
  · rw [if_neg hk]
    exact ⟨td, formatFixed 1 (td.value * 100) ++
        "/100), highly aligned with your research interests in " ++ topic.label ++ ".",
      rfl, hmem, hall, by simp [String.append_assoc], fun hki => absurd hki hk⟩

/-- Witness for C7 (amended) at a concrete scored paper with two
dimensions. -/
theorem C7_witness :
    (([⟨"A", (9 : ℚ)/10, 1/10⟩, ⟨"B", 1/2, 1/2⟩] : List DimensionScore) ≠ []) ∧
    ∃ td s₂,
      pyMaxBy (fun x => x.value * x.weight)
          ([⟨"A", 9/10, 1/10⟩, ⟨"B", 1/2, 1/2⟩] : List DimensionScore) = some td ∧
      td ∈ ([⟨"A", 9/10, 1/10⟩, ⟨"B", 1/2, 1/2⟩] : List DimensionScore) ∧
      (∀ d ∈ ([⟨"A", 9/10, 1/10⟩, ⟨"B", 1/2, 1/2⟩] : List DimensionScore),
        d.value * d.weight ≤ td.value * td.weight) ∧
      ReportBuilder.generate_recommendation ⟨"t", "retrieval", ⟨[], [], []⟩, "p"⟩
          ⟨⟨⟨"t", "retrieval", ⟨[], [], []⟩, "p"⟩, "id2", "Title", "Abs", [], [],
            ⟨2024, 1, 1, 0, 0, 0⟩, ⟨2024, 1, 1, 0, 0, 0⟩, "u", none, [], none⟩,
           [⟨"A", 9/10, 1/10⟩, ⟨"B", 1/2, 1/2⟩], 0⟩ [] =
        "This paper scores high in the **" ++ td.name ++ "** dimension (" ++ s₂ ∧
      (ReportBuilder.key_insight [] ≠ "" →
        ∃ s₁, ReportBuilder.generate_recommendation ⟨"t", "retrieval", ⟨[], [], []⟩, "p"⟩
            ⟨⟨⟨"t", "retrieval", ⟨[], [], []⟩, "p"⟩, "id2", "Title", "Abs", [], [],
              ⟨2024, 1, 1, 0, 0, 0⟩, ⟨2024, 1, 1, 0, 0, 0⟩, "u", none, [], none⟩,
             [⟨"A", 9/10, 1/10⟩, ⟨"B", 1/2, 1/2⟩], 0⟩ [] =
          s₁ ++ " " ++ ReportBuilder.key_insight [] ++ "...") :=
  ⟨by with_unfolding_all decide,
    C7_amended ⟨"t", "retrieval", ⟨[], [], []⟩, "p"⟩
      ⟨⟨⟨"t", "retrieval", ⟨[], [], []⟩, "p"⟩, "id2", "Title", "Abs", [], [],
        ⟨2024, 1, 1, 0, 0, 0⟩, ⟨2024, 1, 1, 0, 0, 0⟩, "u", none, [], none⟩,
       [⟨"A", 9/10, 1/10⟩, ⟨"B", 1/2, 1/2⟩], 0⟩ []
      (by with_unfolding_all decide)⟩

theorem insertGroup_keys (groups : List (String × List PaperSummary)) (s : PaperSummary)
    (name : String) :
    name ∈ (StaticSiteBuilder.insertGroup groups s).map Prod.fst ↔
      name ∈ groups.map Prod.fst ∨ name = s.topic.name := by
  induction groups with
  | nil =>
    simp [StaticSiteBuilder.insertGroup]
  | cons g rest ih =>
    obtain ⟨k, items⟩ := g
    unfold StaticSiteBuilder.insertGroup
    by_cases hk : k = s.topic.name
    · rw [if_pos hk]
      simp [hk]
      tauto
    · rw [if_neg hk]
      simp [ih]
      tauto

theorem foldl_insertGroup_keys (summaries : List PaperSummary) :
    ∀ (groups : List (String × List PaperSummary)) (name : String),
      name ∈ ((summaries.foldl StaticSiteBuilder.insertGroup groups).map Prod.fst) ↔
        name ∈ groups.map Prod.fst ∨ name ∈ summaries.map (fun s => s.topic.name) := by
  induction summaries with
  | nil => simp
  | cons s rest ih =>
    intro groups name
    rw [List.foldl_cons, ih, insertGroup_keys]
    simp
    tauto

/-- C8: the claim asserts the manifest's topics mapping has one entry per
configured topic, with a zero-summary topic mapped to `[]`. The builder
receives only the summary list and groups by the summaries' topic names, so
a run whose single configured topic "t1" produced no summaries writes a
manifest whose topics mapping is empty — "t1" is absent rather than mapped
to an empty list. -/
theorem C8_counterexample :
    StaticSiteBuilder.manifest_topics [] = [] ∧
    ((StaticSiteBuilder.buildManifest "https://example.org" (some "2025-01-01T00:00:00")
        []).topics.map Prod.fst).contains "t1" = false := by
  with_unfolding_all decide

/-- C8 (amended): the manifest contains `base_url`, the `generated` value
(`PIPELINE_RUN_AT`, set by the pipeline to an ISO-8601 timestamp before the
site build), and a topics mapping whose keys are exactly the topic names
that produced at least one summary; a topic with zero summaries does not
appear in the mapping. -/
theorem C8_amended (base : String) (run_at : Option String) (summaries : List PaperSummary) :
    (StaticSiteBuilder.buildManifest base run_at summaries).base_url = base ∧
    (StaticSiteBuilder.buildManifest base run_at summaries).generated = run_at ∧
    ∀ name : String,
      (name ∈ (StaticSiteBuilder.manifest_topics summaries).map Prod.fst ↔
        name ∈ summaries.map (fun s => s.topic.name)) := by
  refine ⟨rfl, rfl, fun name => ?_⟩
  unfold StaticSiteBuilder.manifest_topics StaticSiteBuilder.topic_groups
  rw [List.map_map]
  have hfst : (Prod.fst ∘ fun g : String × List PaperSummary =>
      (g.1, g.2.map (fun s => s.paper.arxiv_id))) = Prod.fst := rfl
  rw [hfst, foldl_insertGroup_keys]
  simp

/-- Witness for C8 (amended) on the empty summary list. -/
theorem C8_witness :
    (StaticSiteBuilder.buildManifest "https://example.org" (some "2025-01-01T00:00:00")
        []).base_url = "https://example.org" ∧
    (StaticSiteBuilder.buildManifest "https://example.org" (some "2025-01-01T00:00:00")
        []).generated = some "2025-01-01T00:00:00" ∧
    ∀ name : String,
      (name ∈ (StaticSiteBuilder.manifest_topics []).map Prod.fst ↔
        name ∈ ([] : List PaperSummary).map (fun s => s.topic.name)) :=
  C8_amended "https://example.org" (some "2025-01-01T00:00:00") []

/-- C9: every normalization site guards its division with the Python idiom
`sum(...) or 1.0`: the denominator used by `ReportBuilder._normalised_score`,
`StaticSiteBuilder._format_score` and the pipeline's `_filter_by_threshold`
(and per-paper log line) is never zero — in particular an empty dimension
list, or all-zero weights, makes the denominator exactly 1 — so
normalization never divides by zero (and over `ℚ` every result is finite). -/
theorem C9 (sp : ScoredPaper) (dims : List RelevanceDimension) :
    ReportBuilder.total_weight sp ≠ 0 ∧ StaticSiteBuilder.total_weight sp ≠ 0 ∧
    Pipeline.total_weight dims ≠ 0 ∧
    (sp.scores = [] →
      ReportBuilder.total_weight sp = 1 ∧ StaticSiteBuilder.total_weight sp = 1) ∧
    (dims = [] → Pipeline.total_weight dims = 1) := by
  refine ⟨pyOr_one_ne_zero _, pyOr_one_ne_zero _, pyOr_one_ne_zero _, ?_, ?_⟩
  · intro h
    unfold ReportBuilder.total_weight StaticSiteBuilder.total_weight
    rw [h]
    simp [pyOr]
  · intro h
    unfold Pipeline.total_weight
    rw [h]
    simp [pyOr]

/-- Witness for C9 at an empty dimension list. -/
theorem C9_witness :
    ReportBuilder.total_weight ⟨⟨⟨"t", "T", ⟨[], [], []⟩, ""⟩, "id3", "Ti", "Ab", [], [],
        ⟨2024, 1, 1, 0, 0, 0⟩, ⟨2024, 1, 1, 0, 0, 0⟩, "u", none, [], none⟩, [], 0⟩ ≠ 0 ∧
    StaticSiteBuilder.total_weight ⟨⟨⟨"t", "T", ⟨[], [], []⟩, ""⟩, "id3", "Ti", "Ab", [], [],
        ⟨2024, 1, 1, 0, 0, 0⟩, ⟨2024, 1, 1, 0, 0, 0⟩, "u", none, [], none⟩, [], 0⟩ ≠ 0 ∧
    Pipeline.total_weight [] ≠ 0 ∧
    ((⟨⟨⟨"t", "T", ⟨[], [], []⟩, ""⟩, "id3", "Ti", "Ab", [], [],
        ⟨2024, 1, 1, 0, 0, 0⟩, ⟨2024, 1, 1, 0, 0, 0⟩, "u", none, [], none⟩, [], 0⟩ :
          ScoredPaper).scores = [] →
      ReportBuilder.total_weight ⟨⟨⟨"t", "T", ⟨[], [], []⟩, ""⟩, "id3", "Ti", "Ab", [], [],
          ⟨2024, 1, 1, 0, 0, 0⟩, ⟨2024, 1, 1, 0, 0, 0⟩, "u", none, [], none⟩, [], 0⟩ = 1 ∧
        StaticSiteBuilder.total_weight ⟨⟨⟨"t", "T", ⟨[], [], []⟩, ""⟩, "id3", "Ti", "Ab", [], [],
          ⟨2024, 1, 1, 0, 0, 0⟩, ⟨2024, 1, 1, 0, 0, 0⟩, "u", none, [], none⟩, [], 0⟩ = 1) ∧
    (([] : List RelevanceDimension) = [] → Pipeline.total_weight [] = 1) :=
  C9 ⟨⟨⟨"t", "T", ⟨[], [], []⟩, ""⟩, "id3", "Ti", "Ab", [], [],
      ⟨2024, 1, 1, 0, 0, 0⟩, ⟨2024, 1, 1, 0, 0, 0⟩, "u", none, [], none⟩, [], 0⟩ []

/-- C10: `ReportBuilder._normalised_score` and the numeric value rendered by
`StaticSiteBuilder._format_score` are the same function of a `ScoredPaper` —
`(Σ weight·value) / (Σ weight, or 1.0 when zero) · 100` — and both sites
format it to one decimal place, so the score printed in the Markdown report
equals the score rendered on the static site. -/
theorem C10 (sp : ScoredPaper) :
    ReportBuilder.normalised_score sp = StaticSiteBuilder.format_score_value sp ∧
    formatFixed 1 (ReportBuilder.normalised_score sp) = StaticSiteBuilder.format_score sp :=
  ⟨rfl, rfl⟩
